import Mathlib

set_option maxRecDepth 8000

/-! Verification development for the PseudoBBL chat-extension sources
(src/pipeline.js, src/index.js, src/unnamed/part_000).  The JavaScript is
shallowly embedded: strings are Lean strings (lists of characters), the JS
numbers produced by parseInt are idealised to exact integers, and every host
interaction (executeSlashCommandsWithOptions, DOM and context reads, the
SillyTavern lorebook collection) is mediated by an explicit Host record while
each issued slash command is recorded in an execution trace. -/

/-- Characters treated as whitespace by the JS trim method and by the
leading-whitespace skip of parseInt (WhiteSpace and LineTerminator code points). -/
def jsWhitespace (c : Char) : Bool :=
  c.toNat == 9 || c.toNat == 10 || c.toNat == 11 || c.toNat == 12 || c.toNat == 13 ||
  c.toNat == 32 || c.toNat == 160 || c.toNat == 0x1680 ||
  (decide (0x2000 ≤ c.toNat) && decide (c.toNat ≤ 0x200A)) ||
  c.toNat == 0x2028 || c.toNat == 0x2029 || c.toNat == 0x202F || c.toNat == 0x205F ||
  c.toNat == 0x3000 || c.toNat == 0xFEFF

/-- JS trim: drop whitespace characters from both ends. -/
def jsTrim (l : List Char) : List Char :=
  ((l.dropWhile jsWhitespace).reverse.dropWhile jsWhitespace).reverse

/-- Whether the first list occurs at the start of the second. -/
def leadsWith : List Char → List Char → Bool
  | [], _ => true
  | _ :: _, [] => false
  | p :: ps, c :: cs => p == c && leadsWith ps cs

/-- JS split on a single separator character: every occurrence separates and
empty fields are kept. -/
def splitOnChar (sep : Char) : List Char → List (List Char)
  | [] => [[]]
  | c :: rest =>
    if c == sep then [] :: splitOnChar sep rest
    else
      match splitOnChar sep rest with
      | [] => [[c]]
      | t :: ts => (c :: t) :: ts

/-- Numeric value of a decimal digit character. -/
def digitVal (c : Char) : Nat := c.toNat - 48

/-- Hexadecimal digit recognizer used by the 0x prefix of parseInt. -/
def isHexDigit (c : Char) : Bool :=
  c.isDigit || (decide (97 ≤ c.toNat) && decide (c.toNat ≤ 102)) ||
  (decide (65 ≤ c.toNat) && decide (c.toNat ≤ 70))

/-- Numeric value of a hexadecimal digit character. -/
def hexVal (c : Char) : Nat :=
  if c.isDigit then c.toNat - 48
  else if decide (97 ≤ c.toNat) && decide (c.toNat ≤ 102) then c.toNat - 87
  else c.toNat - 55

/-- Longest leading run of decimal digits, none when there is no digit. -/
def decNat (l : List Char) : Option Nat :=
  let ds := l.takeWhile Char.isDigit
  if ds.isEmpty then none
  else some (ds.foldl (fun a c => a * 10 + digitVal c) 0)

/-- Longest leading run of hexadecimal digits, none when there is no digit. -/
def hexNat (l : List Char) : Option Nat :=
  let ds := l.takeWhile isHexDigit
  if ds.isEmpty then none
  else some (ds.foldl (fun a c => a * 16 + hexVal c) 0)

/-- Unsigned part of parseInt with unspecified radix: honour a 0x or 0X prefix,
otherwise read decimal digits. -/
def jsParseUnsigned : List Char → Option Nat
  | '0' :: 'x' :: rest => hexNat rest
  | '0' :: 'X' :: rest => hexNat rest
  | l => decNat l

/-- Value of JS parseInt with radix unspecified: skip leading whitespace, read
an optional sign, honour a hex prefix, take the longest digit run; none models
NaN.  Number precision is idealised to exact integers. -/
def jsParseInt (l : List Char) : Option Int :=
  let t := l.dropWhile jsWhitespace
  match t with
  | '-' :: rest => (jsParseUnsigned rest).map (fun n => -(n : Int))
  | '+' :: rest => (jsParseUnsigned rest).map (fun n => (n : Int))
  | _ => (jsParseUnsigned t).map (fun n => (n : Int))

/-- The characters of the opening UID tag. -/
def openTagChars : List Char := "<UIDs>".data

/-- The characters of the closing UID tag. -/
def closeTagChars : List Char := "</UIDs>".data

/-- Whether the regex dot matches a character: with the s (dotall) flag
everything matches, without it the four JS line terminators do not. -/
def regexDotMatches (dotall : Bool) (c : Char) : Bool :=
  dotall || !(c.toNat == 10 || c.toNat == 13 || c.toNat == 0x2028 || c.toNat == 0x2029)

/-- Lazy capture of the UID regex: prefer closing immediately, otherwise consume
one dot-eligible character; none when no close tag is reachable from here. -/
def scanContent (dotall : Bool) : List Char → Option (List Char)
  | [] => none
  | c :: rest =>
    if leadsWith closeTagChars (c :: rest) then some []
    else if regexDotMatches dotall c then (scanContent dotall rest).map (fun t => c :: t)
    else none

/-- First match of the UID regex scanning start positions left to right;
returns the captured group. -/
def findTagMatch (dotall : Bool) : List Char → Option (List Char)
  | [] => none
  | c :: rest =>
    if leadsWith openTagChars (c :: rest) then
      match scanContent dotall ((c :: rest).drop openTagChars.length) with
      | some content => some content
      | none => findTagMatch dotall rest
    else findTagMatch dotall rest

/-- parseUIDs from src/pipeline.js: regex without the dotall flag, an empty or
missing capture yields the empty list, a whitespace-only capture is rejected
explicitly, then the capture is split on commas, each token trimmed and fed to
parseInt, and NaN results are filtered out. -/
def parseUIDs_pipeline (text : String) : List Int :=
  match findTagMatch false text.data with
  | none => []
  | some [] => []
  | some content =>
    if (jsTrim content).isEmpty then []
    else ((splitOnChar ',' content).map (fun t => jsParseInt (jsTrim t))).filterMap id

/-- parseUIDs from src/index.js: the regex carries the s (dotall) flag and there
is no separate whitespace-only check. -/
def parseUIDs_index (text : String) : List Int :=
  match findTagMatch true text.data with
  | none => []
  | some [] => []
  | some content =>
    ((splitOnChar ',' content).map (fun t => jsParseInt (jsTrim t))).filterMap id

/-- parseUIDs from src/unnamed/part_000, textually identical to the
src/pipeline.js version. -/
def parseUIDs_part0 (text : String) : List Int :=
  match findTagMatch false text.data with
  | none => []
  | some [] => []
  | some content =>
    if (jsTrim content).isEmpty then []
    else ((splitOnChar ',' content).map (fun t => jsParseInt (jsTrim t))).filterMap id


/-- The persistent extension settings record (src/index.js defaultSettings shape;
the part_000 variant has the same fields). -/
structure Settings where
  enabled : Bool
  stage1Api : String
  stage1Model : String
  stage2Api : String
  stage2Model : String
  analysisPromptTemplate : String
  lorebookFile : String
  contextDepth : Nat
  smartRegeneration : Bool
  debugMode : Bool
deriving DecidableEq

/-- The in-memory pipeline status record (dependenciesMet only exists in the
src/index.js variant; the debug ring buffer is not modelled). -/
structure PState where
  isRunning : Bool
  cachedAnalysis : Option (List Int)
  isRestoring : Bool
  lastActivity : Nat
  dependenciesMet : Bool
deriving DecidableEq

/-- The userOriginalSettings module variable: provider and model saved before a
run, null when nothing is saved. -/
structure UserOrig where
  api : Option String
  model : Option String
deriving DecidableEq

/-- All module-level mutable extension state touched by the pipeline handler. -/
structure ExtState where
  ps : PState
  orig : UserOrig
deriving DecidableEq

/-- Result object of executeSlashCommandsWithOptions as read by the extension. -/
structure CmdResult where
  isError : Bool
  errorMessage : String
  pipe : String
deriving DecidableEq

/-- Structured form of each slash-command script the extension builds: a
provider or model switch (each part absent when the corresponding command was
not pushed), the raw analysis generation, a lorebook trigger, or a transient
prompt injection. -/
inductive HostCall where
  | apiModel (api : Option String) (model : Option String)
  | genRaw (prompt : String)
  | wiTrigger (file : String) (uid : Int)
  | inject (id : String) (prompt : String)
deriving DecidableEq

/-- A host call as issued, together with the wall-clock timeout (ms) the
extension raced it against via withTimeout, if any. -/
structure TraceEntry where
  call : HostCall
  timeoutMs : Option Nat
deriving DecidableEq

abbrev Trace := List TraceEntry

/-- Pipeline stage selector. -/
inductive Stage where
  | stage1
  | stage2
deriving DecidableEq

/-- One lorebook entry as exposed by the host. -/
structure LorebookEntry where
  uid : Int
  comment : String
  content : String

/-- One lorebook as exposed by the host in-memory collection. -/
structure Lorebook where
  file_name : String
  entries : List LorebookEntry

/-- The host application environment: the deterministic responses to slash
commands, whether a wrapped call would exceed its wall-clock timeout, the
current provider and model of the context object, the formatted chat history
and character profile read from the DOM and context, the formatted registry a
successful index.js lorebook fetch would produce, the in-memory lorebook
collection, the text of the last chat message, the LALib availability flag,
the state of the Shift key, and the current time. -/
structure Host where
  respond : HostCall → CmdResult
  timesOut : HostCall → Bool
  api : String
  model : String
  history : String
  character : String
  registryFetch : String
  lorebooks : List Lorebook
  lastMessage : String
  hasLALib : Bool
  shiftKey : Bool
  now : Nat

/-- Stage-indexed provider setting. -/
def Settings.stageApi (s : Settings) : Stage → String
  | Stage.stage1 => s.stage1Api
  | Stage.stage2 => s.stage2Api

/-- Stage-indexed model setting. -/
def Settings.stageModel (s : Settings) : Stage → String
  | Stage.stage1 => s.stage1Model
  | Stage.stage2 => s.stage2Model

/-- JS truthiness of a nullable string: null and the empty string are falsy. -/
def optTruthy (o : Option String) : Bool := !(o.getD "" == "")

/-- Replace the first occurrence of a pattern, JS String.replace with a plain
string pattern (dollar substitutions in the replacement are not modelled; no
replacement used by this extension contains a dollar sign). -/
def replaceFirstAux (pat rep : List Char) : List Char → List Char
  | [] => if pat.isEmpty then rep else []
  | c :: rest =>
    if leadsWith pat (c :: rest) then rep ++ (c :: rest).drop pat.length
    else c :: replaceFirstAux pat rep rest

/-- String wrapper for the first-occurrence replacement. -/
def replaceFirst (s pat rep : String) : String :=
  String.mk (replaceFirstAux pat.data rep.data s.data)

/-- The default analysis prompt template of src/index.js. -/
def DEFAULT_ANALYSIS_PROMPT_index : String :=
  "#Context[Agentic]\x7b\nAgent 1: You\nRole: User prompt analysis and response planning\nInputs: Scoped context + Reasoning step Registry\nOutputs: Exact strings for Reasoning steps\n\nAgent 2: Additional model instance\nRole: Response generation\nInputs: Outputs from Agent 1 + broader context\nOutputs: Prose/dialogue\n\x7d\n\n##Prompt[Agent 1]\x7b\n# Your task is to analyze the conversation history and select the most relevant \"Reasoning Steps\" (prompts from the registry) to guide the next response from a creative writing AI. Read through the eyes of an author working as a narrative co-pilot.\n# Instructions\n1.  **Analyze Context:** Carefully read the \"Registry\" and the \"Recent Context\" / \"Character Info\" provided below.\n2.  **Reasoning:** First, provide a brief, high-level analysis of the current narrative state. Explain which reasoning steps are most crucial for the next AI response and why.\n3.  **Final Output:** Conclude your entire response with a single, specific line containing only the UIDs you have selected. This line MUST be in the exact format: `<UIDs>X,Y,Z</UIDs>`. Do not include any other text after this tag.\n# Recent Context\n\x7b\x7bhistory\x7d\x7d\n\n# Character Info\n\x7b\x7bcharacter\x7d\x7d\n\n# Registry\n\x7b\x7bregistry\x7d\x7d\n\x7d"

/-- The default analysis prompt template of src/unnamed/part_000 (second
segment), whose output format line hard-codes the sentinel IDs 24 and 25. -/
def DEFAULT_ANALYSIS_PROMPT_part0 : String :=
  "#Context[Agentic]\x7b\nAgent 1: You\nRole: User prompt analysis and response planning\nInputs: Scoped context + Reasoning step Registry\nOutputs: Exact strings for Reasoning steps\n\nAgent 2: Additional model instance\nRole: Response generation\nInputs: Outputs from Agent 1 + broader context\nOutputs: Prose/dialogue\n\x7d\n\n##Prompt[Agent 1]\x7b\n# Your task is to analyze the conversation history and select the most relevant \"Reasoning Steps\" (prompts from the registry) to guide the next response from a creative writing AI. Read through the eyes of an author working as a narrative co-pilot.\n# Instructions\n1.  **Analyze Context:** Carefully read the \"Registry\" and the \"Recent Context\" / \"Character Info\" provided below.\n2.  **Reasoning:** First, provide a brief, high-level analysis of the current narrative state. Explain which reasoning steps are most crucial for the next AI response and why.\n3.  **Final Output:** Conclude your entire response with a single, specific line containing only the UIDs you have selected. This line MUST be in the exact format: `<UIDs>24,X,Y,Z,25</UIDs>`. Do not include any other text after this tag. The list must ALWAYS BEGIN WITH `24` and END WITH `25`\n# Recent Context\n\x7b\x7bhistory\x7d\x7d\n\n# Character Info\n\x7b\x7bcharacter\x7d\x7d\n\n# Registry\n\x7b\x7bregistry\x7d\x7d\n\x7d"

/-- The placeholder returned by the registry builder when no lorebook file is
selected (src/pipeline.js and src/unnamed/part_000). -/
def NO_LOREBOOK_ERROR : String := "[ERROR: No lorebook file selected in extension settings.]"

/-- First non-blank line of an entry content, trimmed, with the literal
fallback used by the registry builder. -/
def firstContentLine (content : String) : String :=
  match (splitOnChar '\n' content.data).find? (fun l => !(jsTrim l).isEmpty) with
  | none => "No description."
  | some l => String.mk (jsTrim l)

/-- getLorebookRegistry from src/pipeline.js; the copy in src/unnamed/part_000
is identical apart from reading the file name from the settings record. -/
def getLorebookRegistry_pipeline (lorebooks : List Lorebook) (lorebookFile : String) : String :=
  if lorebookFile = "" then NO_LOREBOOK_ERROR
  else
    match lorebooks.find? (fun b => b.file_name == lorebookFile) with
    | none => "[ERROR: The lorebook file \"" ++ lorebookFile ++ "\" could not be found among the loaded books.]"
    | some book =>
      if book.entries.isEmpty then "[NOTICE: The selected lorebook is empty or has no entries.]"
      else
        String.intercalate "\n" (book.entries.map (fun e =>
          "[UID: " ++ toString e.uid ++ "] " ++
          (if e.comment = "" then "Untitled Prompt" else e.comment) ++ " - " ++
          firstContentLine e.content))

/-- getLorebookRegistry from src/index.js: the worldinfo fetch and its
formatting (and failure placeholders) are summarised by the host-provided
string; only the missing-file guard is local code. -/
def getLorebookRegistry_index (host : Host) (fileName : String) : String :=
  if fileName = "" then "[ERROR: No lorebook file selected in settings.]"
  else host.registryFetch

/-- Template substitution performed on the analysis prompt: first occurrence of
each placeholder, registry first, then history, then character. -/
def buildPrompt (template registry history character : String) : String :=
  replaceFirst (replaceFirst (replaceFirst template "\x7b\x7bregistry\x7d\x7d" registry)
    "\x7b\x7bhistory\x7d\x7d" history) "\x7b\x7bcharacter\x7d\x7d" character

/-- Analysis prompt as built in src/index.js (empty template falls back to the
default). -/
def analysisPrompt_index (settings : Settings) (registry history character : String) : String :=
  buildPrompt (if settings.analysisPromptTemplate = "" then DEFAULT_ANALYSIS_PROMPT_index
               else settings.analysisPromptTemplate) registry history character

/-- Analysis prompt as built in src/unnamed/part_000. -/
def analysisPrompt_part0 (settings : Settings) (registry history character : String) : String :=
  buildPrompt (if settings.analysisPromptTemplate = "" then DEFAULT_ANALYSIS_PROMPT_part0
               else settings.analysisPromptTemplate) registry history character

/-- Prefix of a message before the first sentence-ending punctuation, the
[.!?] split used by smart regeneration. -/
def firstSentenceSeg (l : List Char) : List Char :=
  l.takeWhile (fun c => !(c == '.' || c == '!' || c == '?'))

/-- applySmartRegeneration from src/index.js: no call when the last message is
empty, otherwise one injection. -/
def applySmartRegeneration_index (host : Host) : Trace :=
  if host.lastMessage = "" then []
  else
    [⟨HostCall.inject "ps_smart_regen"
        ("[System: User has requested a regeneration. Provide an alternative response. Avoid repeating the previous attempt, which started with: \"" ++
         String.mk (firstSentenceSeg host.lastMessage.data) ++ "\"]"), none⟩]

/-- applySmartRegeneration from src/unnamed/part_000: the injection is issued
unconditionally. -/
def applySmartRegeneration_part0 (host : Host) : Trace :=
  [⟨HostCall.inject "smart_regen"
      ("[User regenerated. Generate an alternative response. Avoid starting with or repeating: \"" ++
       String.mk (firstSentenceSeg host.lastMessage.data) ++ "\"]"), none⟩]

/-- restoreUserSettings from src/index.js: guarded by saved values being truthy
and no restoration in flight; the command result is ignored and the saved
values are cleared. -/
def restoreUserSettings_index (host : Host) (st : ExtState) : ExtState × Trace :=
  if optTruthy st.orig.api = true ∧ optTruthy st.orig.model = true ∧ st.ps.isRestoring = false then
    ({ st with orig := { api := none, model := none },
               ps := { st.ps with isRestoring := false } },
     [⟨HostCall.apiModel (some (st.orig.api.getD "")) (some (st.orig.model.getD "")), none⟩])
  else (st, [])

/-- restoreUserSettings from src/unnamed/part_000: same guard, but a host error
is detected and leaves the saved values in place. -/
def restoreUserSettings_part0 (host : Host) (st : ExtState) : ExtState × Trace :=
  if optTruthy st.orig.api = true ∧ optTruthy st.orig.model = true ∧ st.ps.isRestoring = false then
    let call := HostCall.apiModel (some (st.orig.api.getD "")) (some (st.orig.model.getD ""))
    if (host.respond call).isError = true then (st, [⟨call, none⟩])
    else ({ st with orig := { api := none, model := none } }, [⟨call, none⟩])
  else (st, [])

/-- applyModelEnvironment from src/index.js: stage 2 falls back to the saved
user settings when incomplete, a missing value throws, and a host-reported
error throws after the switch call. -/
def applyModelEnvironment_index (host : Host) (settings : Settings) (orig : UserOrig)
    (stage : Stage) : Trace × Except String Unit :=
  let api := if stage = Stage.stage2 ∧ (settings.stage2Api = "" ∨ settings.stage2Model = "")
             then orig.api.getD "" else settings.stageApi stage
  let model := if stage = Stage.stage2 ∧ (settings.stage2Api = "" ∨ settings.stage2Model = "")
               then orig.model.getD "" else settings.stageModel stage
  if api = "" ∨ model = "" then ([], Except.error "Missing API or Model")
  else
    let call := HostCall.apiModel (some api) (some model)
    if (host.respond call).isError = true then ([⟨call, none⟩], Except.error "Failed to apply environment")
    else ([⟨call, none⟩], Except.ok ())

/-- applyModelEnvironment from src/pipeline.js; the copy in src/unnamed/part_000
is identical: each configured part contributes a command, no command at all is
a silent no-op, and a host-reported error throws. -/
def applyModelEnvironment_pipeline (host : Host) (settings : Settings)
    (stage : Stage) : Trace × Except String Unit :=
  let apiOpt := if settings.stageApi stage = "" then none else some (settings.stageApi stage)
  let modelOpt := if settings.stageModel stage = "" then none else some (settings.stageModel stage)
  if apiOpt = none ∧ modelOpt = none then ([], Except.ok ())
  else
    let call := HostCall.apiModel apiOpt modelOpt
    if (host.respond call).isError = true then ([⟨call, none⟩], Except.error "Failed to apply environment")
    else ([⟨call, none⟩], Except.ok ())

/-- runAnalysisStage from src/pipeline.js: switch the stage-1 environment, race
the /genraw call against the 45000 ms wall-clock timeout, throw on a timeout or
a host error, otherwise parse the UID list from the pipe output. -/
def runAnalysisStage_pipeline (host : Host) (settings : Settings) (analysisPrompt : String) :
    Trace × Except String (List Int) :=
  let env := applyModelEnvironment_pipeline host settings Stage.stage1
  match env.2 with
  | Except.error e => (env.1, Except.error e)
  | Except.ok _ =>
    let call := HostCall.genRaw analysisPrompt
    let tr := env.1 ++ [⟨call, some 45000⟩]
    if host.timesOut call = true then (tr, Except.error "Operation timed out after 45000ms")
    else if (host.respond call).isError = true then (tr, Except.error "Analysis API call failed")
    else (tr, Except.ok (parseUIDs_pipeline (host.respond call).pipe))

/-- runAnalysisStage from src/unnamed/part_000: builds the registry, history,
character profile and prompt itself, then proceeds as the pipeline.js version;
an error-marker registry is embedded into the prompt without any check. -/
def runAnalysisStage_part0 (host : Host) (settings : Settings) :
    Trace × Except String (List Int) :=
  let registry := getLorebookRegistry_pipeline host.lorebooks settings.lorebookFile
  let prompt := analysisPrompt_part0 settings registry host.history host.character
  let env := applyModelEnvironment_pipeline host settings Stage.stage1
  match env.2 with
  | Except.error e => (env.1, Except.error e)
  | Except.ok _ =>
    let call := HostCall.genRaw prompt
    let tr := env.1 ++ [⟨call, some 45000⟩]
    if host.timesOut call = true then (tr, Except.error "Operation timed out after 45000ms")
    else if (host.respond call).isError = true then (tr, Except.error "Analysis failed")
    else (tr, Except.ok (parseUIDs_part0 (host.respond call).pipe))

/-- activateLorebooks from src/unnamed/part_000: no lorebook file or missing
LALib skips activation silently, otherwise one /wi-trigger per UID in order. -/
def activateLorebooks_part0 (host : Host) (settings : Settings) (uids : List Int) : Trace :=
  if settings.lorebookFile = "" then []
  else if host.hasLALib = false then []
  else uids.map (fun uid => TraceEntry.mk (HostCall.wiTrigger settings.lorebookFile uid) none)

/-- activateLorebooks from src/pipeline.js: a missing lorebook file throws,
missing LALib warns and returns, otherwise one /wi-trigger per UID in order. -/
def activateLorebooks_pipeline (host : Host) (settings : Settings) (uids : List Int) :
    Trace × Except String Unit :=
  if settings.lorebookFile = "" then ([], Except.error "No lorebook file is configured in settings.")
  else if host.hasLALib = false then ([], Except.ok ())
  else (uids.map (fun uid => TraceEntry.mk (HostCall.wiTrigger settings.lorebookFile uid) none),
        Except.ok ())

/-- The finally block shared by both handler variants: whatever the body
produced, the busy flag is cleared. -/
def finishRun (r : ExtState × Bool × Trace) : ExtState × Bool × Trace :=
  ({ r.1 with ps := { r.1.ps with isRunning := false } }, r.2.1, r.2.2)

/-- First half of the try block of handlePipelineTrigger in src/index.js: pick
the UID list.  On a regeneration event with a cached (possibly empty) list the
analysis is skipped and the smart-regeneration injection may fire; otherwise
the cache is cleared, an error-marker registry throws, the stage-1 environment
is applied, the raw generation is issued with no timeout, and its parsed UIDs
are cached.  The Option result is none when the try block threw. -/
def selectUids_index (host : Host) (settings : Settings) (st1 : ExtState) (eventType : String) :
    ExtState × Trace × Option (List Int) :=
  if (eventType = "swipe" ∨ eventType = "regenerate") ∧ st1.ps.cachedAnalysis ≠ none then
    let tr1 := if settings.smartRegeneration = true then applySmartRegeneration_index host else []
    (st1, tr1, some (st1.ps.cachedAnalysis.getD []))
  else
    let st2 := { st1 with ps := { st1.ps with cachedAnalysis := none } }
    let registry := getLorebookRegistry_index host settings.lorebookFile
    if leadsWith "[ERROR:".data registry.data = true ∨
       leadsWith "[CRITICAL ERROR:".data registry.data = true then
      (st2, [], none)
    else
      let prompt := analysisPrompt_index settings registry host.history host.character
      let env1 := applyModelEnvironment_index host settings st2.orig Stage.stage1
      match env1.2 with
      | Except.error _ => (st2, env1.1, none)
      | Except.ok _ =>
        let call := HostCall.genRaw prompt
        let tr2 := env1.1 ++ [⟨call, none⟩]
        if (host.respond call).isError = true then (st2, tr2, none)
        else
          let uids := parseUIDs_index (host.respond call).pipe
          ({ st2 with ps := { st2.ps with cachedAnalysis := some uids } }, tr2, some uids)

/-- Second half of the try block of handlePipelineTrigger in src/index.js plus
its catch: activate each selected UID, apply the stage-2 environment, and on a
thrown error (none, or a stage-2 failure) restore the user settings and return
the blocking result. -/
def finishStage_index (host : Host) (settings : Settings)
    (stage : ExtState × Trace × Option (List Int)) : ExtState × Bool × Trace :=
  match stage with
  | (stE, trB, none) =>
    let pR := restoreUserSettings_index host stE
    (pR.1, false, trB ++ pR.2)
  | (stE, trB, some uids) =>
    let trW := uids.map (fun uid => TraceEntry.mk (HostCall.wiTrigger settings.lorebookFile uid) none)
    let env2 := applyModelEnvironment_index host settings stE.orig Stage.stage2
    match env2.2 with
    | Except.error _ =>
      let pR := restoreUserSettings_index host stE
      (pR.1, false, trB ++ trW ++ env2.1 ++ pR.2)
    | Except.ok _ => (stE, true, trB ++ trW ++ env2.1)

/-- Body of handlePipelineTrigger from src/index.js after the guard: the
initial restore, the saving of the user's provider and model, then the two
halves of the try block; the caller applies the finally. -/
def runBody_index (host : Host) (settings : Settings) (st0 : ExtState) (eventType : String) :
    ExtState × Bool × Trace :=
  let p0 := restoreUserSettings_index host st0
  let st1 := { p0.1 with orig := { api := some host.api, model := some host.model } }
  let r := finishStage_index host settings (selectUids_index host settings st1 eventType)
  (r.1, r.2.1, p0.2 ++ r.2.2)

/-- handlePipelineTrigger from src/index.js: guard on the enabled setting, the
dependency flag and the busy flag (returning true, letting generation proceed),
then mark the run, stamp the activity time, run the body and clear the busy
flag in the finally.  An absent event type behaves as the literal generate. -/
def handlePipelineTrigger_index (host : Host) (settings : Settings) (st : ExtState)
    (eventType : String) : ExtState × Bool × Trace :=
  if settings.enabled = false ∨ st.ps.dependenciesMet = false ∨ st.ps.isRunning = true then
    (st, true, [])
  else
    let stR := { st with ps := { st.ps with isRunning := true, lastActivity := host.now } }
    finishRun (runBody_index host settings stR eventType)

/-- First half of the try block of handlePipelineTrigger in src/unnamed/part_000:
pick the UID list, reusing the cache on a regeneration event or running the
analysis stage (which builds its own prompt without checking the registry for
error markers); the Option result is none when the try block threw. -/
def selectUids_part0 (host : Host) (settings : Settings) (st1 : ExtState) (eventType : String) :
    ExtState × Trace × Option (List Int) :=
  if (eventType = "swipe" ∨ eventType = "regenerate") ∧ st1.ps.cachedAnalysis ≠ none then
    let tr1 := if settings.smartRegeneration = true then applySmartRegeneration_part0 host else []
    (st1, tr1, some (st1.ps.cachedAnalysis.getD []))
  else
    let a := runAnalysisStage_part0 host settings
    match a.2 with
    | Except.error _ => (st1, a.1, none)
    | Except.ok uids =>
      ({ st1 with ps := { st1.ps with cachedAnalysis := some uids } }, a.1, some uids)

/-- Second half of the try block of handlePipelineTrigger in src/unnamed/part_000
plus its catch: activate the UIDs when the list is non-empty, apply the
stage-2 environment, and on a thrown error restore and block. -/
def finishStage_part0 (host : Host) (settings : Settings)
    (stage : ExtState × Trace × Option (List Int)) : ExtState × Bool × Trace :=
  match stage with
  | (stE, trB, none) =>
    let pR := restoreUserSettings_part0 host stE
    (pR.1, false, trB ++ pR.2)
  | (stE, trB, some uids) =>
    let trW := if 0 < uids.length then activateLorebooks_part0 host settings uids else []
    let env2 := applyModelEnvironment_pipeline host settings Stage.stage2
    match env2.2 with
    | Except.error _ =>
      let pR := restoreUserSettings_part0 host stE
      (pR.1, false, trB ++ trW ++ env2.1 ++ pR.2)
    | Except.ok _ => (stE, true, trB ++ trW ++ env2.1)

/-- Body of handlePipelineTrigger from src/unnamed/part_000 after its guards:
the try block with the catch branch folded in; the caller applies the finally.
Unlike the index.js variant there is no initial restore here (the user settings
were saved by the caller just before). -/
def runBody_part0 (host : Host) (settings : Settings) (st1 : ExtState) (eventType : String) :
    ExtState × Bool × Trace :=
  finishStage_part0 host settings (selectUids_part0 host settings st1 eventType)

/-- handlePipelineTrigger from src/unnamed/part_000: the activity time is
stamped before any guard, the guard on the enabled and busy flags returns
false, a held Shift key bypasses with false, then the busy flag is set, the
user's provider and model are saved, the body runs and the finally clears the
busy flag. -/
def handlePipelineTrigger_part0 (host : Host) (settings : Settings) (st : ExtState)
    (eventType : String) : ExtState × Bool × Trace :=
  let st0 := { st with ps := { st.ps with lastActivity := host.now } }
  if settings.enabled = false ∨ st0.ps.isRunning = true then (st0, false, [])
  else if host.shiftKey = true then (st0, false, [])
  else
    let st1 := { st0 with ps := { st0.ps with isRunning := true } }
    let st2 := { st1 with orig := { api := some host.api, model := some host.model } }
    finishRun (runBody_part0 host settings st2 eventType)

/-- Recognizer for the raw analysis generation call. -/
def isGenRawCall : HostCall → Bool
  | HostCall.genRaw _ => true
  | _ => false

/-- Recognizer for a lorebook trigger call. -/
def isWiTriggerCall : HostCall → Bool
  | HostCall.wiTrigger _ _ => true
  | _ => false

/-- A trace contains a raw analysis generation call. -/
def hasGenRaw (tr : Trace) : Bool := tr.any (fun e => isGenRawCall e.call)

/-- A trace contains a lorebook trigger call. -/
def hasWiTrigger (tr : Trace) : Bool := tr.any (fun e => isWiTriggerCall e.call)

/-- The UIDs activated by a trace, in call order with multiplicity. -/
def wiUids (tr : Trace) : List Int :=
  tr.filterMap (fun e => match e.call with
    | HostCall.wiTrigger _ uid => some uid
    | _ => none)

/-- Number of raw analysis generation calls in a trace. -/
def genRawCount (tr : Trace) : Nat := (tr.filter (fun e => isGenRawCall e.call)).length

/-- Timeout discipline of the pipeline.js and part_000 embedding: the analysis
call carries exactly the 45000 ms wall-clock timeout and nothing else carries
any. -/
def timeoutDiscipline (e : TraceEntry) : Bool :=
  match e.call, e.timeoutMs with
  | HostCall.genRaw _, some 45000 => true
  | HostCall.genRaw _, _ => false
  | _, none => true
  | _, _ => false

/-- No entry of the trace carries a wall-clock timeout. -/
def noTimeouts (tr : Trace) : Bool := tr.all (fun e => e.timeoutMs == none)

/-- A trace containing only provider or model switch commands, none of them
wrapped in a timeout: the shape of every restore and environment subtrace. -/
def switchOnly (tr : Trace) : Bool :=
  tr.all (fun e => (match e.call with
    | HostCall.apiModel _ _ => true
    | _ => false) && (e.timeoutMs == none))

/-- Host response used by concrete scenarios: every command succeeds and the
generation pipe carries a well-formed UID tag. -/
def respondAllOk : HostCall → CmdResult := fun _ => ⟨false, "", "<UIDs>4,2</UIDs>"⟩

/-- A benign concrete host environment. -/
def baseHost : Host :=
  { respond := respondAllOk, timesOut := fun _ => false, api := "ua", model := "um",
    history := "H", character := "C", registryFetch := "REG", lorebooks := [],
    lastMessage := "Hi. There", hasLALib := true, shiftKey := false, now := 5 }

/-- A fully configured, enabled settings record with a short custom template. -/
def settingsOn : Settings :=
  { enabled := true, stage1Api := "g1", stage1Model := "m1", stage2Api := "g2",
    stage2Model := "m2", analysisPromptTemplate := "T:\x7b\x7bregistry\x7d\x7d",
    lorebookFile := "lore", contextDepth := 5, smartRegeneration := true, debugMode := false }

/-- The configured settings with the extension disabled. -/
def settingsOff : Settings := { settingsOn with enabled := false }

/-- The configured settings with no lorebook file selected. -/
def settingsNoFile : Settings := { settingsOn with lorebookFile := "" }

/-- Idle extension state: not running, nothing cached, dependencies met. -/
def idleState : ExtState :=
  { ps := { isRunning := false, cachedAnalysis := none, isRestoring := false,
            lastActivity := 0, dependenciesMet := true },
    orig := { api := none, model := none } }

/-- Idle state with a cached analysis list. -/
def cachedState : ExtState :=
  { idleState with ps := { idleState.ps with cachedAnalysis := some [4, 2] } }

/-- State with a run already marked in flight. -/
def busyState : ExtState :=
  { idleState with ps := { idleState.ps with isRunning := true } }

lemma allWS_of_dropWhile_nil (l : List Char) (h : l.dropWhile jsWhitespace = []) :
    ∀ c ∈ l, jsWhitespace c = true := by
  induction l with
  | nil => intro c hc; cases hc
  | cons a t ih =>
    intro c hc
    rw [List.dropWhile_cons] at h
    by_cases ha : jsWhitespace a = true
    · rw [if_pos ha] at h
      rcases List.mem_cons.mp hc with hca | hct
      · exact hca ▸ ha
      · exact ih h c hct
    · rw [if_neg ha] at h
      cases h

lemma dropWhile_nil_of_allWS (l : List Char) (h : ∀ c ∈ l, jsWhitespace c = true) :
    l.dropWhile jsWhitespace = [] := by
  induction l with
  | nil => rfl
  | cons a t ih =>
    rw [List.dropWhile_cons, if_pos (h a (List.mem_cons_self a t))]
    exact ih (fun c hc => h c (List.mem_cons_of_mem a hc))

lemma mem_of_mem_dropWhile (p : Char → Bool) (l : List Char) (c : Char)
    (h : c ∈ l.dropWhile p) : c ∈ l := by
  induction l with
  | nil => simp at h
  | cons a t ih =>
    rw [List.dropWhile_cons] at h
    by_cases ha : p a = true
    · rw [if_pos ha] at h
      exact List.mem_cons_of_mem a (ih h)
    · rw [if_neg ha] at h
      exact h

lemma mem_of_mem_jsTrim (l : List Char) (c : Char) (h : c ∈ jsTrim l) : c ∈ l := by
  unfold jsTrim at h
  rw [List.mem_reverse] at h
  have h2 := mem_of_mem_dropWhile _ _ _ h
  rw [List.mem_reverse] at h2
  exact mem_of_mem_dropWhile _ _ _ h2

lemma jsTrim_nil_allWS (l : List Char) (h : (jsTrim l).isEmpty = true) :
    ∀ c ∈ l, jsWhitespace c = true := by
  rw [List.isEmpty_iff] at h
  unfold jsTrim at h
  rw [List.reverse_eq_nil_iff] at h
  have htail : ∀ c ∈ l.dropWhile jsWhitespace, jsWhitespace c = true := by
    intro c hc
    exact allWS_of_dropWhile_nil _ h c (List.mem_reverse.mpr hc)
  intro c hc
  rw [← List.takeWhile_append_dropWhile (p := jsWhitespace) (l := l)] at hc
  rcases List.mem_append.mp hc with hc1 | hc2
  · exact List.mem_takeWhile_imp hc1
  · exact htail c hc2

lemma jsParseInt_none_of_allWS (t : List Char) (h : ∀ c ∈ t, jsWhitespace c = true) :
    jsParseInt t = none := by
  have hd : t.dropWhile jsWhitespace = [] := dropWhile_nil_of_allWS t h
  unfold jsParseInt
  rw [hd]
  rfl

lemma mem_of_mem_splitOnChar (sep : Char) (l : List Char) :
    ∀ t ∈ splitOnChar sep l, ∀ c ∈ t, c ∈ l := by
  induction l with
  | nil =>
    intro t ht c hc
    simp only [splitOnChar, List.mem_singleton] at ht
    subst ht; cases hc
  | cons a rest ih =>
    intro t ht c hc
    by_cases ha : (a == sep) = true
    · simp only [splitOnChar, ha, if_true] at ht
      rcases List.mem_cons.mp ht with ht1 | ht2
      · subst ht1; cases hc
      · exact List.mem_cons_of_mem a (ih t ht2 c hc)
    · simp only [splitOnChar] at ht
      rw [if_neg ha] at ht
      rcases hr : splitOnChar sep rest with _ | ⟨t0, ts⟩
      · rw [hr] at ht
        have ht2 : t ∈ ([[a]] : List (List Char)) := ht
        rw [List.mem_singleton] at ht2
        subst ht2
        rw [List.mem_singleton] at hc
        rw [hc]; exact List.mem_cons_self a rest
      · rw [hr] at ht
        have ht2 : t ∈ (a :: t0) :: ts := ht
        rcases List.mem_cons.mp ht2 with ht3 | ht4
        · subst ht3
          rcases List.mem_cons.mp hc with hc1 | hc2
          · rw [hc1]; exact List.mem_cons_self a rest
          · have ht0 : t0 ∈ splitOnChar sep rest := by rw [hr]; exact List.mem_cons_self t0 ts
            exact List.mem_cons_of_mem a (ih t0 ht0 c hc2)
        · have htm : t ∈ splitOnChar sep rest := by rw [hr]; exact List.mem_cons_of_mem t0 ht4
          exact List.mem_cons_of_mem a (ih t htm c hc)

lemma filterMap_none_of {α β : Type} (l : List α) (f : α → Option β)
    (h : ∀ x ∈ l, f x = none) : l.filterMap f = [] := by
  induction l with
  | nil => rfl
  | cons a t ih =>
    rw [List.filterMap_cons, h a (List.mem_cons_self a t)]
    exact ih (fun x hx => h x (List.mem_cons_of_mem a hx))

lemma mapFilterId {α β : Type} (l : List α) (g : α → Option β) :
    (l.map g).filterMap id = l.filterMap g := by
  induction l with
  | nil => rfl
  | cons a t ih =>
    rw [List.map_cons, List.filterMap_cons, List.filterMap_cons]
    cases g a <;> simp [ih]

lemma tokens_parse_none (content : List Char) (h : (jsTrim content).isEmpty = true) :
    ∀ t ∈ splitOnChar ',' content, jsParseInt (jsTrim t) = none := by
  intro t ht
  apply jsParseInt_none_of_allWS
  intro c hc
  exact jsTrim_nil_allWS content h c
    (mem_of_mem_splitOnChar ',' content t ht c (mem_of_mem_jsTrim t c hc))

lemma parseUIDs_pipeline_eq (s : String) (content : List Char)
    (h : findTagMatch false s.data = some content) :
    parseUIDs_pipeline s = (splitOnChar ',' content).filterMap (fun t => jsParseInt (jsTrim t)) := by
  cases content with
  | nil => simp only [parseUIDs_pipeline, h]; rfl
  | cons x xs =>
    simp only [parseUIDs_pipeline, h]
    by_cases hws : (jsTrim (x :: xs)).isEmpty = true
    · rw [if_pos hws]
      exact (filterMap_none_of _ _ (tokens_parse_none (x :: xs) hws)).symm
    · rw [if_neg hws]
      exact mapFilterId _ _

lemma scanContent_congr (l : List Char) (h : ∀ c ∈ l, regexDotMatches false c = true) :
    scanContent true l = scanContent false l := by
  induction l with
  | nil => rfl
  | cons a rest ih =>
    have ha : regexDotMatches false a = true := h a (List.mem_cons_self a rest)
    have ha2 : regexDotMatches true a = true := rfl
    simp only [scanContent, ha, ha2, if_true]
    split
    · rfl
    · rw [ih (fun c hc => h c (List.mem_cons_of_mem a hc))]

lemma findTagMatch_congr (l : List Char) (h : ∀ c ∈ l, regexDotMatches false c = true) :
    findTagMatch true l = findTagMatch false l := by
  induction l with
  | nil => rfl
  | cons a rest ih =>
    have hdrop : ∀ c ∈ (a :: rest).drop openTagChars.length, regexDotMatches false c = true :=
      fun c hc => h c (List.drop_subset _ _ hc)
    have ih2 := ih (fun c hc => h c (List.mem_cons_of_mem a hc))
    simp only [findTagMatch, scanContent_congr _ hdrop, ih2]

lemma parseUIDs_index_eq_pipeline (s : String)
    (h : ∀ c ∈ s.data, regexDotMatches false c = true) :
    parseUIDs_index s = parseUIDs_pipeline s := by
  cases hm : findTagMatch false s.data with
  | none =>
    have hm2 : findTagMatch true s.data = none := by rw [findTagMatch_congr _ h, hm]
    simp only [parseUIDs_index, parseUIDs_pipeline, hm, hm2]
  | some content =>
    have hm2 : findTagMatch true s.data = some content := by rw [findTagMatch_congr _ h, hm]
    cases content with
    | nil => simp only [parseUIDs_index, parseUIDs_pipeline, hm, hm2]
    | cons x xs =>
      simp only [parseUIDs_index, parseUIDs_pipeline, hm, hm2]
      by_cases hws : (jsTrim (x :: xs)).isEmpty = true
      · rw [if_pos hws, mapFilterId]
        exact filterMap_none_of _ _ (tokens_parse_none (x :: xs) hws)
      · rw [if_neg hws]

lemma switchOnly_props (tr : Trace) (h : switchOnly tr = true) :
    hasGenRaw tr = false ∧ hasWiTrigger tr = false ∧ wiUids tr = [] ∧
    noTimeouts tr = true ∧ tr.all timeoutDiscipline = true ∧ genRawCount tr = 0 := by
  induction tr with
  | nil => exact ⟨rfl, rfl, rfl, rfl, rfl, rfl⟩
  | cons e t ih =>
    rcases e with ⟨c, tmo⟩
    cases c <;> cases tmo <;>
      simp_all [switchOnly, hasGenRaw, hasWiTrigger, wiUids, noTimeouts, timeoutDiscipline,
        genRawCount, isGenRawCall, isWiTriggerCall, List.all_cons, List.any_cons,
        List.filterMap_cons, List.filter_cons]

lemma hasGenRaw_append (a b : Trace) : hasGenRaw (a ++ b) = (hasGenRaw a || hasGenRaw b) := by
  simp [hasGenRaw, List.any_append]

lemma hasWiTrigger_append (a b : Trace) :
    hasWiTrigger (a ++ b) = (hasWiTrigger a || hasWiTrigger b) := by
  simp [hasWiTrigger, List.any_append]

lemma wiUids_append (a b : Trace) : wiUids (a ++ b) = wiUids a ++ wiUids b := by
  simp [wiUids, List.filterMap_append]

lemma noTimeouts_append (a b : Trace) : noTimeouts (a ++ b) = (noTimeouts a && noTimeouts b) := by
  simp [noTimeouts, List.all_append]

lemma discipline_append (a b : Trace) :
    (a ++ b).all timeoutDiscipline = (a.all timeoutDiscipline && b.all timeoutDiscipline) := by
  simp [List.all_append]

lemma genRawCount_append (a b : Trace) :
    genRawCount (a ++ b) = genRawCount a + genRawCount b := by
  simp [genRawCount, List.filter_append]

lemma switchOnly_restore_index (host : Host) (st : ExtState) :
    switchOnly (restoreUserSettings_index host st).2 = true := by
  unfold restoreUserSettings_index
  split <;> rfl

lemma switchOnly_restore_part0 (host : Host) (st : ExtState) :
    switchOnly (restoreUserSettings_part0 host st).2 = true := by
  unfold restoreUserSettings_part0
  dsimp only
  repeat' split
  all_goals rfl

lemma switchOnly_env_index (host : Host) (settings : Settings) (orig : UserOrig) (stage : Stage) :
    switchOnly (applyModelEnvironment_index host settings orig stage).1 = true := by
  unfold applyModelEnvironment_index
  dsimp only
  repeat' split
  all_goals rfl

lemma switchOnly_env_pipeline (host : Host) (settings : Settings) (stage : Stage) :
    switchOnly (applyModelEnvironment_pipeline host settings stage).1 = true := by
  unfold applyModelEnvironment_pipeline
  dsimp only
  repeat' split
  all_goals rfl

lemma restore_index_ps (host : Host) (st : ExtState) :
    ((restoreUserSettings_index host st).1).ps = st.ps := by
  unfold restoreUserSettings_index
  split
  · rename_i h
    rw [← h.2.2]
  · rfl

lemma restore_part0_ps (host : Host) (st : ExtState) :
    ((restoreUserSettings_part0 host st).1).ps = st.ps := by
  unfold restoreUserSettings_part0
  dsimp only
  repeat' split
  all_goals rfl

lemma wi_map_props (file : String) (uids : List Int) :
    hasGenRaw (uids.map (fun uid => TraceEntry.mk (HostCall.wiTrigger file uid) none)) = false ∧
    wiUids (uids.map (fun uid => TraceEntry.mk (HostCall.wiTrigger file uid) none)) = uids ∧
    noTimeouts (uids.map (fun uid => TraceEntry.mk (HostCall.wiTrigger file uid) none)) = true ∧
    (uids.map (fun uid => TraceEntry.mk (HostCall.wiTrigger file uid) none)).all
      timeoutDiscipline = true ∧
    genRawCount (uids.map (fun uid => TraceEntry.mk (HostCall.wiTrigger file uid) none)) = 0 := by
  induction uids with
  | nil => exact ⟨rfl, rfl, rfl, rfl, rfl⟩
  | cons u us ih =>
    simp_all [hasGenRaw, wiUids, noTimeouts, genRawCount, timeoutDiscipline, isGenRawCall,
      List.map_cons, List.any_cons, List.all_cons, List.filterMap_cons, List.filter_cons]

lemma smartRegen_index_props (host : Host) :
    hasGenRaw (applySmartRegeneration_index host) = false ∧
    hasWiTrigger (applySmartRegeneration_index host) = false ∧
    wiUids (applySmartRegeneration_index host) = [] ∧
    noTimeouts (applySmartRegeneration_index host) = true ∧
    (applySmartRegeneration_index host).all timeoutDiscipline = true ∧
    genRawCount (applySmartRegeneration_index host) = 0 := by
  unfold applySmartRegeneration_index
  split
  · exact ⟨rfl, rfl, rfl, rfl, rfl, rfl⟩
  · exact ⟨rfl, rfl, rfl, rfl, rfl, rfl⟩

lemma smartRegen_part0_props (host : Host) :
    hasGenRaw (applySmartRegeneration_part0 host) = false ∧
    hasWiTrigger (applySmartRegeneration_part0 host) = false ∧
    wiUids (applySmartRegeneration_part0 host) = [] ∧
    noTimeouts (applySmartRegeneration_part0 host) = true ∧
    (applySmartRegeneration_part0 host).all timeoutDiscipline = true ∧
    genRawCount (applySmartRegeneration_part0 host) = 0 :=
  ⟨rfl, rfl, rfl, rfl, rfl, rfl⟩

lemma activate_part0_props (host : Host) (settings : Settings) (uids : List Int) :
    hasGenRaw (activateLorebooks_part0 host settings uids) = false ∧
    noTimeouts (activateLorebooks_part0 host settings uids) = true ∧
    (activateLorebooks_part0 host settings uids).all timeoutDiscipline = true ∧
    genRawCount (activateLorebooks_part0 host settings uids) = 0 := by
  unfold activateLorebooks_part0
  split
  · exact ⟨rfl, rfl, rfl, rfl⟩
  · split
    · exact ⟨rfl, rfl, rfl, rfl⟩
    · have h := wi_map_props settings.lorebookFile uids
      exact ⟨h.1, h.2.2.1, h.2.2.2.1, h.2.2.2.2⟩

@[simp] lemma hasGenRaw_nil : hasGenRaw [] = false := rfl
@[simp] lemma hasWiTrigger_nil : hasWiTrigger [] = false := rfl
@[simp] lemma wiUids_nil : wiUids [] = [] := rfl
@[simp] lemma noTimeouts_nil : noTimeouts [] = true := rfl
@[simp] lemma genRawCount_nil : genRawCount [] = 0 := rfl
@[simp] lemma discipline_nil : List.all [] timeoutDiscipline = true := rfl

@[simp] lemma hasGenRaw_genSingle (p : String) (t : Option Nat) :
    hasGenRaw [⟨HostCall.genRaw p, t⟩] = true := rfl
@[simp] lemma hasWiTrigger_genSingle (p : String) (t : Option Nat) :
    hasWiTrigger [⟨HostCall.genRaw p, t⟩] = false := rfl
@[simp] lemma wiUids_genSingle (p : String) (t : Option Nat) :
    wiUids [⟨HostCall.genRaw p, t⟩] = [] := rfl
@[simp] lemma genRawCount_genSingle (p : String) (t : Option Nat) :
    genRawCount [⟨HostCall.genRaw p, t⟩] = 1 := rfl
@[simp] lemma noTimeouts_genNone (p : String) :
    noTimeouts [⟨HostCall.genRaw p, none⟩] = true := rfl
@[simp] lemma discipline_gen45 (p : String) :
    List.all [⟨HostCall.genRaw p, some 45000⟩] timeoutDiscipline = true := rfl
@[simp] lemma timeoutDiscipline_gen45 (p : String) :
    timeoutDiscipline ⟨HostCall.genRaw p, some 45000⟩ = true := rfl
@[simp] lemma timeoutDiscipline_apiModel (a m : Option String) :
    timeoutDiscipline ⟨HostCall.apiModel a m, none⟩ = true := rfl
@[simp] lemma timeoutDiscipline_inject (i p : String) :
    timeoutDiscipline ⟨HostCall.inject i p, none⟩ = true := rfl
@[simp] lemma timeoutDiscipline_wi (f : String) (u : Int) :
    timeoutDiscipline ⟨HostCall.wiTrigger f u, none⟩ = true := rfl

@[simp] lemma hasGenRaw_restore_index (host : Host) (st : ExtState) :
    hasGenRaw (restoreUserSettings_index host st).2 = false :=
  (switchOnly_props _ (switchOnly_restore_index host st)).1
@[simp] lemma hasWiTrigger_restore_index (host : Host) (st : ExtState) :
    hasWiTrigger (restoreUserSettings_index host st).2 = false :=
  (switchOnly_props _ (switchOnly_restore_index host st)).2.1
@[simp] lemma wiUids_restore_index (host : Host) (st : ExtState) :
    wiUids (restoreUserSettings_index host st).2 = [] :=
  (switchOnly_props _ (switchOnly_restore_index host st)).2.2.1
@[simp] lemma noTimeouts_restore_index (host : Host) (st : ExtState) :
    noTimeouts (restoreUserSettings_index host st).2 = true :=
  (switchOnly_props _ (switchOnly_restore_index host st)).2.2.2.1
@[simp] lemma discipline_restore_index (host : Host) (st : ExtState) :
    List.all (restoreUserSettings_index host st).2 timeoutDiscipline = true :=
  (switchOnly_props _ (switchOnly_restore_index host st)).2.2.2.2.1
@[simp] lemma genRawCount_restore_index (host : Host) (st : ExtState) :
    genRawCount (restoreUserSettings_index host st).2 = 0 :=
  (switchOnly_props _ (switchOnly_restore_index host st)).2.2.2.2.2

@[simp] lemma hasGenRaw_restore_part0 (host : Host) (st : ExtState) :
    hasGenRaw (restoreUserSettings_part0 host st).2 = false :=
  (switchOnly_props _ (switchOnly_restore_part0 host st)).1
@[simp] lemma hasWiTrigger_restore_part0 (host : Host) (st : ExtState) :
    hasWiTrigger (restoreUserSettings_part0 host st).2 = false :=
  (switchOnly_props _ (switchOnly_restore_part0 host st)).2.1
@[simp] lemma wiUids_restore_part0 (host : Host) (st : ExtState) :
    wiUids (restoreUserSettings_part0 host st).2 = [] :=
  (switchOnly_props _ (switchOnly_restore_part0 host st)).2.2.1
@[simp] lemma noTimeouts_restore_part0 (host : Host) (st : ExtState) :
    noTimeouts (restoreUserSettings_part0 host st).2 = true :=
  (switchOnly_props _ (switchOnly_restore_part0 host st)).2.2.2.1
@[simp] lemma discipline_restore_part0 (host : Host) (st : ExtState) :
    List.all (restoreUserSettings_part0 host st).2 timeoutDiscipline = true :=
  (switchOnly_props _ (switchOnly_restore_part0 host st)).2.2.2.2.1
@[simp] lemma genRawCount_restore_part0 (host : Host) (st : ExtState) :
    genRawCount (restoreUserSettings_part0 host st).2 = 0 :=
  (switchOnly_props _ (switchOnly_restore_part0 host st)).2.2.2.2.2

@[simp] lemma hasGenRaw_env_index (host : Host) (settings : Settings) (orig : UserOrig)
    (stage : Stage) : hasGenRaw (applyModelEnvironment_index host settings orig stage).1 = false :=
  (switchOnly_props _ (switchOnly_env_index host settings orig stage)).1
@[simp] lemma hasWiTrigger_env_index (host : Host) (settings : Settings) (orig : UserOrig)
    (stage : Stage) :
    hasWiTrigger (applyModelEnvironment_index host settings orig stage).1 = false :=
  (switchOnly_props _ (switchOnly_env_index host settings orig stage)).2.1
@[simp] lemma wiUids_env_index (host : Host) (settings : Settings) (orig : UserOrig)
    (stage : Stage) : wiUids (applyModelEnvironment_index host settings orig stage).1 = [] :=
  (switchOnly_props _ (switchOnly_env_index host settings orig stage)).2.2.1
@[simp] lemma noTimeouts_env_index (host : Host) (settings : Settings) (orig : UserOrig)
    (stage : Stage) : noTimeouts (applyModelEnvironment_index host settings orig stage).1 = true :=
  (switchOnly_props _ (switchOnly_env_index host settings orig stage)).2.2.2.1
@[simp] lemma discipline_env_index (host : Host) (settings : Settings) (orig : UserOrig)
    (stage : Stage) :
    List.all (applyModelEnvironment_index host settings orig stage).1 timeoutDiscipline = true :=
  (switchOnly_props _ (switchOnly_env_index host settings orig stage)).2.2.2.2.1
@[simp] lemma genRawCount_env_index (host : Host) (settings : Settings) (orig : UserOrig)
    (stage : Stage) : genRawCount (applyModelEnvironment_index host settings orig stage).1 = 0 :=
  (switchOnly_props _ (switchOnly_env_index host settings orig stage)).2.2.2.2.2

@[simp] lemma hasGenRaw_env_pipeline (host : Host) (settings : Settings) (stage : Stage) :
    hasGenRaw (applyModelEnvironment_pipeline host settings stage).1 = false :=
  (switchOnly_props _ (switchOnly_env_pipeline host settings stage)).1
@[simp] lemma hasWiTrigger_env_pipeline (host : Host) (settings : Settings) (stage : Stage) :
    hasWiTrigger (applyModelEnvironment_pipeline host settings stage).1 = false :=
  (switchOnly_props _ (switchOnly_env_pipeline host settings stage)).2.1
@[simp] lemma wiUids_env_pipeline (host : Host) (settings : Settings) (stage : Stage) :
    wiUids (applyModelEnvironment_pipeline host settings stage).1 = [] :=
  (switchOnly_props _ (switchOnly_env_pipeline host settings stage)).2.2.1
@[simp] lemma noTimeouts_env_pipeline (host : Host) (settings : Settings) (stage : Stage) :
    noTimeouts (applyModelEnvironment_pipeline host settings stage).1 = true :=
  (switchOnly_props _ (switchOnly_env_pipeline host settings stage)).2.2.2.1
@[simp] lemma discipline_env_pipeline (host : Host) (settings : Settings) (stage : Stage) :
    List.all (applyModelEnvironment_pipeline host settings stage).1 timeoutDiscipline = true :=
  (switchOnly_props _ (switchOnly_env_pipeline host settings stage)).2.2.2.2.1
@[simp] lemma genRawCount_env_pipeline (host : Host) (settings : Settings) (stage : Stage) :
    genRawCount (applyModelEnvironment_pipeline host settings stage).1 = 0 :=
  (switchOnly_props _ (switchOnly_env_pipeline host settings stage)).2.2.2.2.2

@[simp] lemma hasGenRaw_wi_map (file : String) (uids : List Int) :
    hasGenRaw (uids.map (fun uid => TraceEntry.mk (HostCall.wiTrigger file uid) none)) = false :=
  (wi_map_props file uids).1
@[simp] lemma wiUids_wi_map (file : String) (uids : List Int) :
    wiUids (uids.map (fun uid => TraceEntry.mk (HostCall.wiTrigger file uid) none)) = uids :=
  (wi_map_props file uids).2.1
@[simp] lemma noTimeouts_wi_map (file : String) (uids : List Int) :
    noTimeouts (uids.map (fun uid => TraceEntry.mk (HostCall.wiTrigger file uid) none)) = true :=
  (wi_map_props file uids).2.2.1
@[simp] lemma discipline_wi_map (file : String) (uids : List Int) :
    (uids.map (fun uid => TraceEntry.mk (HostCall.wiTrigger file uid) none)).all
      timeoutDiscipline = true :=
  (wi_map_props file uids).2.2.2.1
@[simp] lemma genRawCount_wi_map (file : String) (uids : List Int) :
    genRawCount (uids.map (fun uid => TraceEntry.mk (HostCall.wiTrigger file uid) none)) = 0 :=
  (wi_map_props file uids).2.2.2.2

@[simp] lemma hasGenRaw_smart_index (host : Host) :
    hasGenRaw (applySmartRegeneration_index host) = false := (smartRegen_index_props host).1
@[simp] lemma hasWiTrigger_smart_index (host : Host) :
    hasWiTrigger (applySmartRegeneration_index host) = false := (smartRegen_index_props host).2.1
@[simp] lemma wiUids_smart_index (host : Host) :
    wiUids (applySmartRegeneration_index host) = [] := (smartRegen_index_props host).2.2.1
@[simp] lemma noTimeouts_smart_index (host : Host) :
    noTimeouts (applySmartRegeneration_index host) = true := (smartRegen_index_props host).2.2.2.1
@[simp] lemma discipline_smart_index (host : Host) :
    (applySmartRegeneration_index host).all timeoutDiscipline = true :=
  (smartRegen_index_props host).2.2.2.2.1
@[simp] lemma genRawCount_smart_index (host : Host) :
    genRawCount (applySmartRegeneration_index host) = 0 := (smartRegen_index_props host).2.2.2.2.2

@[simp] lemma hasGenRaw_smart_part0 (host : Host) :
    hasGenRaw (applySmartRegeneration_part0 host) = false := (smartRegen_part0_props host).1
@[simp] lemma hasWiTrigger_smart_part0 (host : Host) :
    hasWiTrigger (applySmartRegeneration_part0 host) = false := (smartRegen_part0_props host).2.1
@[simp] lemma wiUids_smart_part0 (host : Host) :
    wiUids (applySmartRegeneration_part0 host) = [] := (smartRegen_part0_props host).2.2.1
@[simp] lemma noTimeouts_smart_part0 (host : Host) :
    noTimeouts (applySmartRegeneration_part0 host) = true := (smartRegen_part0_props host).2.2.2.1
@[simp] lemma discipline_smart_part0 (host : Host) :
    (applySmartRegeneration_part0 host).all timeoutDiscipline = true :=
  (smartRegen_part0_props host).2.2.2.2.1
@[simp] lemma genRawCount_smart_part0 (host : Host) :
    genRawCount (applySmartRegeneration_part0 host) = 0 := (smartRegen_part0_props host).2.2.2.2.2

@[simp] lemma hasGenRaw_activate_part0 (host : Host) (settings : Settings) (uids : List Int) :
    hasGenRaw (activateLorebooks_part0 host settings uids) = false :=
  (activate_part0_props host settings uids).1
@[simp] lemma noTimeouts_activate_part0 (host : Host) (settings : Settings) (uids : List Int) :
    noTimeouts (activateLorebooks_part0 host settings uids) = true :=
  (activate_part0_props host settings uids).2.1
@[simp] lemma discipline_activate_part0 (host : Host) (settings : Settings) (uids : List Int) :
    (activateLorebooks_part0 host settings uids).all timeoutDiscipline = true :=
  (activate_part0_props host settings uids).2.2.1
@[simp] lemma genRawCount_activate_part0 (host : Host) (settings : Settings) (uids : List Int) :
    genRawCount (activateLorebooks_part0 host settings uids) = 0 :=
  (activate_part0_props host settings uids).2.2.2

lemma finishRun_trace (r : ExtState × Bool × Trace) : (finishRun r).2.2 = r.2.2 := rfl

lemma finishRun_retval (r : ExtState × Bool × Trace) : (finishRun r).2.1 = r.2.1 := rfl

lemma select_index_inv (host : Host) (settings : Settings) (st1 : ExtState) (ev : String) :
    noTimeouts (selectUids_index host settings st1 ev).2.1 = true ∧
    genRawCount (selectUids_index host settings st1 ev).2.1 ≤ 1 ∧
    hasWiTrigger (selectUids_index host settings st1 ev).2.1 = false := by
  unfold selectUids_index
  dsimp only
  repeat' split
  all_goals simp [noTimeouts_append, genRawCount_append, hasWiTrigger_append]

lemma finish_index_noTimeouts (host : Host) (settings : Settings)
    (stage : ExtState × Trace × Option (List Int)) (h : noTimeouts stage.2.1 = true) :
    noTimeouts (finishStage_index host settings stage).2.2 = true := by
  rcases stage with ⟨stE, trB, u⟩
  have h2 : noTimeouts trB = true := h
  rcases u with _ | uids
  · simp only [finishStage_index]
    simp [noTimeouts_append, h2]
  · simp only [finishStage_index]
    split <;> simp [noTimeouts_append, h2]

lemma finish_index_genCount (host : Host) (settings : Settings)
    (stage : ExtState × Trace × Option (List Int)) :
    genRawCount (finishStage_index host settings stage).2.2 = genRawCount stage.2.1 := by
  rcases stage with ⟨stE, trB, u⟩
  rcases u with _ | uids
  · simp only [finishStage_index]
    simp [genRawCount_append]
  · simp only [finishStage_index]
    split <;> simp [genRawCount_append]

lemma c7_index_inv (host : Host) (settings : Settings) (st : ExtState) (ev : String) :
    noTimeouts (handlePipelineTrigger_index host settings st ev).2.2 = true ∧
    genRawCount (handlePipelineTrigger_index host settings st ev).2.2 ≤ 1 := by
  unfold handlePipelineTrigger_index
  split
  · exact ⟨rfl, by simp [genRawCount_nil]⟩
  · unfold finishRun runBody_index
    dsimp only
    constructor
    · rw [noTimeouts_append]
      simp [finish_index_noTimeouts host settings _ (select_index_inv host settings _ ev).1]
    · rw [genRawCount_append]
      simp [finish_index_genCount]
      exact (select_index_inv host settings _ ev).2.1

lemma analysis_part0_discipline (host : Host) (settings : Settings) :
    (runAnalysisStage_part0 host settings).1.all timeoutDiscipline = true := by
  unfold runAnalysisStage_part0
  dsimp only
  repeat' split
  all_goals simp [discipline_append]

lemma analysis_part0_genCount (host : Host) (settings : Settings) :
    genRawCount (runAnalysisStage_part0 host settings).1 ≤ 1 := by
  unfold runAnalysisStage_part0
  dsimp only
  repeat' split
  all_goals simp [genRawCount_append]

lemma select_part0_discipline (host : Host) (settings : Settings) (st1 : ExtState) (ev : String) :
    (selectUids_part0 host settings st1 ev).2.1.all timeoutDiscipline = true := by
  unfold selectUids_part0
  dsimp only
  repeat' split
  all_goals simp [discipline_append, analysis_part0_discipline]

lemma select_part0_genCount (host : Host) (settings : Settings) (st1 : ExtState) (ev : String) :
    genRawCount (selectUids_part0 host settings st1 ev).2.1 ≤ 1 := by
  unfold selectUids_part0
  dsimp only
  repeat' split
  all_goals simp [genRawCount_append, analysis_part0_genCount]

lemma finish_part0_discipline (host : Host) (settings : Settings)
    (stage : ExtState × Trace × Option (List Int))
    (h : stage.2.1.all timeoutDiscipline = true) :
    (finishStage_part0 host settings stage).2.2.all timeoutDiscipline = true := by
  rcases stage with ⟨stE, trB, u⟩
  have h2 : trB.all timeoutDiscipline = true := h
  rcases u with _ | uids
  · simp only [finishStage_part0]
    simp [discipline_append, h2]
  · simp only [finishStage_part0]
    repeat' split
    all_goals simp [discipline_append, h2]

lemma finish_part0_genCount (host : Host) (settings : Settings)
    (stage : ExtState × Trace × Option (List Int)) :
    genRawCount (finishStage_part0 host settings stage).2.2 = genRawCount stage.2.1 := by
  rcases stage with ⟨stE, trB, u⟩
  rcases u with _ | uids
  · simp only [finishStage_part0]
    simp [genRawCount_append]
  · simp only [finishStage_part0]
    repeat' split
    all_goals simp [genRawCount_append]

lemma c7_part0_inv (host : Host) (settings : Settings) (st : ExtState) (ev : String) :
    (handlePipelineTrigger_part0 host settings st ev).2.2.all timeoutDiscipline = true ∧
    genRawCount (handlePipelineTrigger_part0 host settings st ev).2.2 ≤ 1 := by
  unfold handlePipelineTrigger_part0
  dsimp only
  split
  · exact ⟨rfl, by simp [genRawCount_nil]⟩
  · split
    · exact ⟨rfl, by simp [genRawCount_nil]⟩
    · unfold finishRun runBody_part0
      dsimp only
      constructor
      · exact finish_part0_discipline host settings _ (select_part0_discipline host settings _ ev)
      · rw [finish_part0_genCount]
        exact select_part0_genCount host settings _ ev

lemma analysis_pipeline_discipline (host : Host) (settings : Settings) (p : String) :
    (runAnalysisStage_pipeline host settings p).1.all timeoutDiscipline = true := by
  unfold runAnalysisStage_pipeline
  dsimp only
  repeat' split
  all_goals simp [discipline_append]

lemma analysis_pipeline_genCount (host : Host) (settings : Settings) (p : String) :
    genRawCount (runAnalysisStage_pipeline host settings p).1 ≤ 1 := by
  unfold runAnalysisStage_pipeline
  dsimp only
  repeat' split
  all_goals simp [genRawCount_append]

lemma activate_pipeline_inv (host : Host) (settings : Settings) (uids : List Int) :
    (activateLorebooks_pipeline host settings uids).1.all timeoutDiscipline = true ∧
    genRawCount (activateLorebooks_pipeline host settings uids).1 = 0 := by
  unfold activateLorebooks_pipeline
  repeat' split
  all_goals simp

lemma select_index_cached (host : Host) (settings : Settings) (st1 : ExtState) (ev : String)
    (uids : List Int) (hev : ev = "swipe" ∨ ev = "regenerate")
    (hc : st1.ps.cachedAnalysis = some uids) :
    selectUids_index host settings st1 ev =
      (st1, (if settings.smartRegeneration = true then applySmartRegeneration_index host else []),
       some uids) := by
  unfold selectUids_index
  rw [if_pos ⟨hev, by simp [hc]⟩]
  simp [hc]

lemma select_part0_cached (host : Host) (settings : Settings) (st1 : ExtState) (ev : String)
    (uids : List Int) (hev : ev = "swipe" ∨ ev = "regenerate")
    (hc : st1.ps.cachedAnalysis = some uids) :
    selectUids_part0 host settings st1 ev =
      (st1, (if settings.smartRegeneration = true then applySmartRegeneration_part0 host else []),
       some uids) := by
  unfold selectUids_part0
  rw [if_pos ⟨hev, by simp [hc]⟩]
  simp [hc]

lemma finish_index_some_hasGen (host : Host) (settings : Settings) (stE : ExtState) (trB : Trace)
    (uids : List Int) :
    hasGenRaw (finishStage_index host settings (stE, trB, some uids)).2.2 = hasGenRaw trB := by
  simp only [finishStage_index]
  repeat' split
  all_goals simp [hasGenRaw_append]

lemma finish_index_some_wiUids (host : Host) (settings : Settings) (stE : ExtState) (trB : Trace)
    (uids : List Int) :
    wiUids (finishStage_index host settings (stE, trB, some uids)).2.2 = wiUids trB ++ uids := by
  simp only [finishStage_index]
  repeat' split
  all_goals simp [wiUids_append]

lemma activate_part0_eq (host : Host) (settings : Settings) (uids : List Int)
    (hfile : ¬ settings.lorebookFile = "") (hl : host.hasLALib = true) :
    activateLorebooks_part0 host settings uids =
      uids.map (fun uid => TraceEntry.mk (HostCall.wiTrigger settings.lorebookFile uid) none) := by
  unfold activateLorebooks_part0
  rw [if_neg hfile, if_neg (by simp [hl])]

lemma finish_part0_some_hasGen (host : Host) (settings : Settings) (stE : ExtState) (trB : Trace)
    (uids : List Int) :
    hasGenRaw (finishStage_part0 host settings (stE, trB, some uids)).2.2 = hasGenRaw trB := by
  simp only [finishStage_part0]
  repeat' split
  all_goals simp [hasGenRaw_append]

lemma finish_part0_some_wiUids (host : Host) (settings : Settings) (stE : ExtState) (trB : Trace)
    (uids : List Int) (hfile : ¬ settings.lorebookFile = "") (hl : host.hasLALib = true) :
    wiUids (finishStage_part0 host settings (stE, trB, some uids)).2.2 = wiUids trB ++ uids := by
  have hw : wiUids (if 0 < uids.length then activateLorebooks_part0 host settings uids else []) =
      uids := by
    split
    · rw [activate_part0_eq host settings uids hfile hl]
      simp
    · rename_i hlen
      have h0 : uids = [] := List.length_eq_zero.mp (Nat.le_zero.mp (Nat.not_lt.mp hlen))
      rw [h0]
      rfl
  simp only [finishStage_part0]
  repeat' split
  all_goals simp_all [wiUids_append]

lemma finish_index_none (host : Host) (settings : Settings) (stE : ExtState) (trB : Trace) :
    finishStage_index host settings (stE, trB, none) =
      ((restoreUserSettings_index host stE).1, false,
       trB ++ (restoreUserSettings_index host stE).2) := rfl

lemma select_index_marker_err (host : Host) (settings : Settings) (st1 : ExtState) (ev : String)
    (hc : st1.ps.cachedAnalysis = none)
    (hmark : leadsWith "[ERROR:".data
        (getLorebookRegistry_index host settings.lorebookFile).data = true ∨
      leadsWith "[CRITICAL ERROR:".data
        (getLorebookRegistry_index host settings.lorebookFile).data = true) :
    selectUids_index host settings st1 ev =
      ({ st1 with ps := { st1.ps with cachedAnalysis := none } }, [], none) := by
  unfold selectUids_index
  rw [if_neg (by simp [hc])]
  dsimp only
  rw [if_pos hmark]

lemma analysis_part0_mem_gen (host : Host) (settings : Settings)
    (henv : (applyModelEnvironment_pipeline host settings Stage.stage1).2 = Except.ok ()) :
    TraceEntry.mk (HostCall.genRaw (analysisPrompt_part0 settings
        (getLorebookRegistry_pipeline host.lorebooks settings.lorebookFile)
        host.history host.character)) (some 45000) ∈ (runAnalysisStage_part0 host settings).1 := by
  unfold runAnalysisStage_part0
  dsimp only
  rw [henv]
  dsimp only
  repeat' split
  all_goals simp [List.mem_append]

lemma select_part0_mem_gen (host : Host) (settings : Settings) (st1 : ExtState) (ev : String)
    (hc : st1.ps.cachedAnalysis = none)
    (henv : (applyModelEnvironment_pipeline host settings Stage.stage1).2 = Except.ok ()) :
    TraceEntry.mk (HostCall.genRaw (analysisPrompt_part0 settings
        (getLorebookRegistry_pipeline host.lorebooks settings.lorebookFile)
        host.history host.character)) (some 45000) ∈
      (selectUids_part0 host settings st1 ev).2.1 := by
  unfold selectUids_part0
  rw [if_neg (by simp [hc])]
  dsimp only
  split
  · exact analysis_part0_mem_gen host settings henv
  · exact analysis_part0_mem_gen host settings henv

lemma finish_part0_mem (host : Host) (settings : Settings)
    (stage : ExtState × Trace × Option (List Int)) (e : TraceEntry) (h : e ∈ stage.2.1) :
    e ∈ (finishStage_part0 host settings stage).2.2 := by
  rcases stage with ⟨stE, trB, u⟩
  have h2 : e ∈ trB := h
  rcases u with _ | uids
  · simp only [finishStage_part0]
    simp [List.mem_append, h2]
  · simp only [finishStage_part0]
    repeat' split
    all_goals simp [List.mem_append, h2]

lemma hasGenRaw_ite (c : Prop) [Decidable c] (a b : Trace) (ha : hasGenRaw a = false)
    (hb : hasGenRaw b = false) : hasGenRaw (if c then a else b) = false := by
  split <;> assumption

lemma wiUids_ite (c : Prop) [Decidable c] (a b : Trace) (ha : wiUids a = [])
    (hb : wiUids b = []) : wiUids (if c then a else b) = [] := by
  split <;> assumption

lemma runBody_index_cached (host : Host) (settings : Settings) (st0 : ExtState) (ev : String)
    (uids : List Int) (hev : ev = "swipe" ∨ ev = "regenerate")
    (hc : st0.ps.cachedAnalysis = some uids) :
    hasGenRaw (runBody_index host settings st0 ev).2.2 = false ∧
    wiUids (runBody_index host settings st0 ev).2.2 = uids := by
  unfold runBody_index
  dsimp only
  have hc1 : (ExtState.mk (restoreUserSettings_index host st0).1.ps
      (UserOrig.mk (some host.api) (some host.model))).ps.cachedAnalysis = some uids := by
    show (restoreUserSettings_index host st0).1.ps.cachedAnalysis = some uids
    rw [restore_index_ps]; exact hc
  rw [select_index_cached host settings _ ev uids hev hc1]
  constructor
  · rw [hasGenRaw_append, finish_index_some_hasGen]
    simp [hasGenRaw_ite]
  · rw [wiUids_append, finish_index_some_wiUids]
    simp [wiUids_ite]

lemma runBody_part0_cached (host : Host) (settings : Settings) (st1 : ExtState) (ev : String)
    (uids : List Int) (hev : ev = "swipe" ∨ ev = "regenerate")
    (hc : st1.ps.cachedAnalysis = some uids) (hfile : ¬ settings.lorebookFile = "")
    (hl : host.hasLALib = true) :
    hasGenRaw (runBody_part0 host settings st1 ev).2.2 = false ∧
    wiUids (runBody_part0 host settings st1 ev).2.2 = uids := by
  unfold runBody_part0
  rw [select_part0_cached host settings st1 ev uids hev hc]
  constructor
  · rw [finish_part0_some_hasGen]
    simp [hasGenRaw_ite]
  · rw [finish_part0_some_wiUids host settings st1 _ uids hfile hl]
    simp [wiUids_ite]

/-- C1: for every input containing a UID tag, parseUIDs splits the captured
content on commas, parses each trimmed token with parseInt, drops the
non-numeric (NaN) tokens and returns the results in input order with
multiplicity (no deduplication, no range validation); in particular the
spec examples, a duplicate and a large UID parse as written. -/
theorem claim1_parse_contract :
    (∀ s content, findTagMatch false s.data = some content →
      parseUIDs_pipeline s =
        (splitOnChar ',' content).filterMap (fun t => jsParseInt (jsTrim t))) ∧
    parseUIDs_pipeline "<UIDs>1,3,7</UIDs>" = [1, 3, 7] ∧
    parseUIDs_pipeline "<UIDs>1, a, 3</UIDs>" = [1, 3] ∧
    parseUIDs_pipeline "<UIDs>7,7,9999</UIDs>" = [7, 7, 9999] :=
  ⟨parseUIDs_pipeline_eq, by decide, by decide, by decide⟩

theorem claim1_parse_contract_witness :
    parseUIDs_pipeline "<UIDs>1,3,7</UIDs>" =
      (splitOnChar ',' "1,3,7".data).filterMap (fun t => jsParseInt (jsTrim t)) :=
  claim1_parse_contract.1 "<UIDs>1,3,7</UIDs>" "1,3,7".data (by decide)

/-- C2: any input without a regex match parses to the empty list in both the
pipeline.js and the index.js versions (total functions, no error), and the
empty-content and whitespace-only-content inputs parse to the empty list. -/
theorem claim2_empty_cases :
    (∀ s, findTagMatch false s.data = none → parseUIDs_pipeline s = []) ∧
    (∀ s, findTagMatch true s.data = none → parseUIDs_index s = []) ∧
    parseUIDs_pipeline "<UIDs></UIDs>" = [] ∧
    parseUIDs_pipeline "<UIDs>   </UIDs>" = [] ∧
    parseUIDs_index "<UIDs></UIDs>" = [] ∧
    parseUIDs_index "<UIDs>   </UIDs>" = [] := by
  refine ⟨?_, ?_, by decide, by decide, by decide, by decide⟩
  · intro s h
    simp only [parseUIDs_pipeline, h]
  · intro s h
    simp only [parseUIDs_index, h]

theorem claim2_empty_cases_witness :
    parseUIDs_pipeline "just text" = [] ∧ parseUIDs_index "just text" = [] :=
  ⟨claim2_empty_cases.1 "just text" (by decide),
   claim2_empty_cases.2.1 "just text" (by decide)⟩

/-- C4: with the enabled setting false, neither variant of
handlePipelineTrigger issues a /genraw or a /wi-trigger call (indeed the
guard fires before any host call). -/
theorem claim4_disabled_no_calls (host : Host) (settings : Settings) (st : ExtState)
    (eventType : String) (h : settings.enabled = false) :
    hasGenRaw (handlePipelineTrigger_index host settings st eventType).2.2 = false ∧
    hasWiTrigger (handlePipelineTrigger_index host settings st eventType).2.2 = false ∧
    hasGenRaw (handlePipelineTrigger_part0 host settings st eventType).2.2 = false ∧
    hasWiTrigger (handlePipelineTrigger_part0 host settings st eventType).2.2 = false := by
  have h1 : handlePipelineTrigger_index host settings st eventType = (st, true, []) := by
    unfold handlePipelineTrigger_index
    rw [if_pos (Or.inl h)]
  have h2 : handlePipelineTrigger_part0 host settings st eventType =
      ({ st with ps := { st.ps with lastActivity := host.now } }, false, []) := by
    unfold handlePipelineTrigger_part0
    dsimp only
    rw [if_pos (Or.inl h)]
  rw [h1, h2]
  exact ⟨rfl, rfl, rfl, rfl⟩

theorem claim4_disabled_no_calls_witness :
    hasGenRaw (handlePipelineTrigger_index baseHost settingsOff idleState "generate").2.2 = false ∧
    hasWiTrigger (handlePipelineTrigger_index baseHost settingsOff idleState "generate").2.2 =
      false ∧
    hasGenRaw (handlePipelineTrigger_part0 baseHost settingsOff idleState "generate").2.2 = false ∧
    hasWiTrigger (handlePipelineTrigger_part0 baseHost settingsOff idleState "generate").2.2 =
      false :=
  claim4_disabled_no_calls baseHost settingsOff idleState "generate" (by decide)

/-- C5 fails as stated: in the part_000 variant a trigger arriving while the
busy flag is set still overwrites pipelineState.lastActivity (the stamp
precedes the guard), so the skipped invocation is not free of state changes. -/
theorem claim5_counterexample :
    (handlePipelineTrigger_part0 baseHost settingsOn busyState "generate").1.ps.lastActivity = 5 ∧
    busyState.ps.lastActivity = 0 ∧
    ¬ (handlePipelineTrigger_part0 baseHost settingsOn busyState "generate").1 = busyState := by
  refine ⟨by decide, by decide, by decide⟩

/-- C5 amended: a trigger arriving while the busy flag is set issues no host
call and returns at the guard; the index.js variant leaves the state exactly
unchanged and returns true, while the part_000 variant first overwrites
lastActivity with the current time and returns false. -/
theorem claim5_amended (host : Host) (settings : Settings) (st : ExtState) (eventType : String)
    (h : st.ps.isRunning = true) :
    handlePipelineTrigger_index host settings st eventType = (st, true, []) ∧
    handlePipelineTrigger_part0 host settings st eventType =
      ({ st with ps := { st.ps with lastActivity := host.now } }, false, []) := by
  constructor
  · unfold handlePipelineTrigger_index
    rw [if_pos (Or.inr (Or.inr h))]
  · unfold handlePipelineTrigger_part0
    dsimp only
    rw [if_pos (Or.inr h)]

theorem claim5_amended_witness :
    handlePipelineTrigger_index baseHost settingsOn busyState "generate" =
      (busyState, true, []) ∧
    handlePipelineTrigger_part0 baseHost settingsOn busyState "generate" =
      ({ busyState with ps := { busyState.ps with lastActivity := baseHost.now } },
       false, []) :=
  claim5_amended baseHost settingsOn busyState "generate" (by decide)

/-- C9 fails as stated: on an input whose tag content spans a newline the
dotall regex of the index.js variant matches while the pipeline.js and
part_000 regexes do not, so the three parsers disagree. -/
theorem claim9_counterexample :
    parseUIDs_pipeline "<UIDs>\n7</UIDs>" = [] ∧
    parseUIDs_part0 "<UIDs>\n7</UIDs>" = [] ∧
    parseUIDs_index "<UIDs>\n7</UIDs>" = [7] ∧
    ¬ parseUIDs_index "<UIDs>\n7</UIDs>" = parseUIDs_pipeline "<UIDs>\n7</UIDs>" :=
  ⟨by decide, by decide, by decide, by decide⟩

/-- C9 amended: the pipeline.js and part_000 parsers agree on every input, and
the index.js parser agrees with them on every input free of the four JS line
terminators; the variants may disagree only when the tag content spans a line
terminator, where only the dotall regex of index.js can match. -/
theorem claim9_amended :
    (∀ s, parseUIDs_pipeline s = parseUIDs_part0 s) ∧
    (∀ s, s.data.all (fun c => regexDotMatches false c) = true →
      parseUIDs_index s = parseUIDs_pipeline s) := by
  refine ⟨fun s => rfl, fun s h => parseUIDs_index_eq_pipeline s ?_⟩
  intro c hc
  exact List.all_eq_true.mp h c hc

theorem claim9_amended_witness :
    parseUIDs_pipeline "<UIDs>2,4</UIDs>" = parseUIDs_part0 "<UIDs>2,4</UIDs>" ∧
    parseUIDs_index "<UIDs>2,4</UIDs>" = parseUIDs_pipeline "<UIDs>2,4</UIDs>" :=
  ⟨claim9_amended.1 "<UIDs>2,4</UIDs>", claim9_amended.2 "<UIDs>2,4</UIDs>" (by decide)⟩

/-- C10 fails as stated: an invocation that terminates through the busy-flag
guard leaves isRunning set (it is the in-flight run that clears it), so it is
not true that after every terminating invocation the flag is false. -/
theorem claim10_counterexample :
    (handlePipelineTrigger_index baseHost settingsOn busyState "generate").1.ps.isRunning = true ∧
    (handlePipelineTrigger_part0 baseHost settingsOn busyState "generate").1.ps.isRunning =
      true := by
  refine ⟨by decide, by decide⟩

/-- C10 amended: every invocation entered with the busy flag clear terminates
with it clear again, on every path (guard skip, success, thrown error), in
both variants: the finally block resets the flag whenever it was set. -/
theorem claim10_amended (host : Host) (settings : Settings) (st : ExtState) (eventType : String)
    (h : st.ps.isRunning = false) :
    (handlePipelineTrigger_index host settings st eventType).1.ps.isRunning = false ∧
    (handlePipelineTrigger_part0 host settings st eventType).1.ps.isRunning = false := by
  constructor
  · unfold handlePipelineTrigger_index
    split
    · exact h
    · rfl
  · unfold handlePipelineTrigger_part0
    dsimp only
    split
    · exact h
    · split
      · exact h
      · rfl

theorem claim10_amended_witness :
    (handlePipelineTrigger_index baseHost settingsOn idleState "generate").1.ps.isRunning =
      false ∧
    (handlePipelineTrigger_part0 baseHost settingsOn idleState "generate").1.ps.isRunning =
      false :=
  claim10_amended baseHost settingsOn idleState "generate" (by decide)

/-- C3: on a swipe or regenerate trigger with a cached analysis present (and
the run guards passing: enabled, dependencies met, not busy, no Shift bypass,
a lorebook file selected and LALib present for the part_000 activation), no
/genraw call is issued and the activated UID list is exactly the cached list,
in both handler variants. -/
theorem claim3_cached_regen (host : Host) (settings : Settings) (st : ExtState) (ev : String)
    (uids : List Int)
    (henabled : settings.enabled = true) (hdeps : st.ps.dependenciesMet = true)
    (hrun : st.ps.isRunning = false) (hcache : st.ps.cachedAnalysis = some uids)
    (hev : ev = "swipe" ∨ ev = "regenerate") (hshift : host.shiftKey = false)
    (hfile : ¬ settings.lorebookFile = "") (hl : host.hasLALib = true) :
    (hasGenRaw (handlePipelineTrigger_index host settings st ev).2.2 = false ∧
     wiUids (handlePipelineTrigger_index host settings st ev).2.2 = uids) ∧
    (hasGenRaw (handlePipelineTrigger_part0 host settings st ev).2.2 = false ∧
     wiUids (handlePipelineTrigger_part0 host settings st ev).2.2 = uids) := by
  constructor
  · unfold handlePipelineTrigger_index
    rw [if_neg (by simp [henabled, hdeps, hrun])]
    rw [finishRun_trace]
    exact runBody_index_cached host settings _ ev uids hev hcache
  · unfold handlePipelineTrigger_part0
    dsimp only
    split
    · rename_i hcond
      rcases hcond with h1 | h2
      · rw [henabled] at h1
        exact Bool.noConfusion h1
      · have h3 : st.ps.isRunning = true := h2
        rw [hrun] at h3
        exact Bool.noConfusion h3
    · split
      · rename_i hs
        rw [hshift] at hs
        exact Bool.noConfusion hs
      · rw [finishRun_trace]
        exact runBody_part0_cached host settings _ ev uids hev hcache hfile hl

theorem claim3_cached_regen_witness :
    (hasGenRaw (handlePipelineTrigger_index baseHost settingsOn cachedState "swipe").2.2 = false ∧
     wiUids (handlePipelineTrigger_index baseHost settingsOn cachedState "swipe").2.2 = [4, 2]) ∧
    (hasGenRaw (handlePipelineTrigger_part0 baseHost settingsOn cachedState "swipe").2.2 = false ∧
     wiUids (handlePipelineTrigger_part0 baseHost settingsOn cachedState "swipe").2.2 = [4, 2]) :=
  claim3_cached_regen baseHost settingsOn cachedState "swipe" [4, 2] (by decide) (by decide)
    (by decide) (by decide) (Or.inl rfl) (by decide) (by decide) (by decide)

lemma runBody_index_abort (host : Host) (settings : Settings) (st0 : ExtState) (ev : String)
    (hc : st0.ps.cachedAnalysis = none)
    (hmark : leadsWith "[ERROR:".data
        (getLorebookRegistry_index host settings.lorebookFile).data = true ∨
      leadsWith "[CRITICAL ERROR:".data
        (getLorebookRegistry_index host settings.lorebookFile).data = true) :
    (runBody_index host settings st0 ev).2.1 = false ∧
    hasGenRaw (runBody_index host settings st0 ev).2.2 = false := by
  unfold runBody_index
  dsimp only
  rw [select_index_marker_err host settings
      (ExtState.mk (restoreUserSettings_index host st0).1.ps
        (UserOrig.mk (some host.api) (some host.model))) ev
      (by show (restoreUserSettings_index host st0).1.ps.cachedAnalysis = none
          rw [restore_index_ps]; exact hc) hmark]
  rw [finish_index_none]
  constructor
  · rfl
  · simp [hasGenRaw_append]

/-- C6 fails as stated: in the index.js variant a missing lorebook file does
produce the placeholder registry string, but the handler then detects the
error marker and throws, so no analysis prompt is sent (no /genraw in the
trace) and the run blocks, contradicting the still-sent part of the claim. -/
theorem claim6_counterexample :
    getLorebookRegistry_index baseHost "" = "[ERROR: No lorebook file selected in settings.]" ∧
    hasGenRaw (handlePipelineTrigger_index baseHost settingsNoFile idleState "generate").2.2 =
      false ∧
    (handlePipelineTrigger_index baseHost settingsNoFile idleState "generate").2.1 = false :=
  ⟨by decide, by decide, by decide⟩

/-- C6 amended: the registry builders return descriptive placeholder strings
rather than throwing when no lorebook file is selected; the part_000 variant
embeds the placeholder into the analysis prompt and still issues the /genraw
call carrying it, while the index.js variant checks for the marker, issues no
analysis call and blocks the turn. -/
theorem claim6_amended :
    (∀ lbs : List Lorebook, getLorebookRegistry_pipeline lbs "" = NO_LOREBOOK_ERROR) ∧
    (∀ host : Host, getLorebookRegistry_index host "" =
      "[ERROR: No lorebook file selected in settings.]") ∧
    (∀ (host : Host) (settings : Settings) (st : ExtState) (ev : String),
      settings.enabled = true → st.ps.isRunning = false → host.shiftKey = false →
      st.ps.cachedAnalysis = none → settings.lorebookFile = "" →
      (applyModelEnvironment_pipeline host settings Stage.stage1).2 = Except.ok () →
      TraceEntry.mk (HostCall.genRaw (analysisPrompt_part0 settings NO_LOREBOOK_ERROR
        host.history host.character)) (some 45000) ∈
        (handlePipelineTrigger_part0 host settings st ev).2.2) ∧
    (∀ (host : Host) (settings : Settings) (st : ExtState) (ev : String),
      settings.enabled = true → st.ps.dependenciesMet = true → st.ps.isRunning = false →
      st.ps.cachedAnalysis = none → settings.lorebookFile = "" →
      hasGenRaw (handlePipelineTrigger_index host settings st ev).2.2 = false ∧
      (handlePipelineTrigger_index host settings st ev).2.1 = false) := by
  refine ⟨fun lbs => rfl, fun host => rfl, ?_, ?_⟩
  · intro host settings st ev hen hrun hshift hc hfile henv
    unfold handlePipelineTrigger_part0
    dsimp only
    split
    · rename_i hcond
      rcases hcond with h1 | h2
      · rw [hen] at h1
        exact Bool.noConfusion h1
      · have h3 : st.ps.isRunning = true := h2
        rw [hrun] at h3
        exact Bool.noConfusion h3
    · split
      · rename_i hs
        rw [hshift] at hs
        exact Bool.noConfusion hs
      · rw [finishRun_trace]
        unfold runBody_part0
        apply finish_part0_mem
        rw [show NO_LOREBOOK_ERROR =
            getLorebookRegistry_pipeline host.lorebooks settings.lorebookFile from by
          rw [hfile]
          rfl]
        refine select_part0_mem_gen host settings _ ev ?_ henv
        exact hc
  · intro host settings st ev hen hdeps hrun hc hfile
    have hmark : leadsWith "[ERROR:".data
        (getLorebookRegistry_index host settings.lorebookFile).data = true ∨
      leadsWith "[CRITICAL ERROR:".data
        (getLorebookRegistry_index host settings.lorebookFile).data = true := by
      left
      rw [hfile]
      rfl
    unfold handlePipelineTrigger_index
    rw [if_neg (by simp [hen, hdeps, hrun])]
    rw [finishRun_retval, finishRun_trace]
    have h := runBody_index_abort host settings
      { st with ps := { st.ps with isRunning := true, lastActivity := host.now } } ev hc hmark
    exact ⟨h.2, h.1⟩

theorem claim6_amended_witness :
    TraceEntry.mk (HostCall.genRaw (analysisPrompt_part0 settingsNoFile NO_LOREBOOK_ERROR
        baseHost.history baseHost.character)) (some 45000) ∈
      (handlePipelineTrigger_part0 baseHost settingsNoFile idleState "generate").2.2 ∧
    (hasGenRaw (handlePipelineTrigger_index baseHost settingsNoFile idleState "generate").2.2 =
        false ∧
      (handlePipelineTrigger_index baseHost settingsNoFile idleState "generate").2.1 = false) :=
  ⟨claim6_amended.2.2.1 baseHost settingsNoFile idleState "generate" (by decide) (by decide)
      (by decide) (by decide) (by decide) rfl,
   claim6_amended.2.2.2 baseHost settingsNoFile idleState "generate" (by decide) (by decide)
      (by decide) (by decide) (by decide)⟩

/-- C7 fails as stated: in the index.js variant a run that does issue the
analysis /genraw call carries no wall-clock timeout on it (nor on any other
call), so it is not the case that exactly one host call is guarded. -/
theorem claim7_counterexample :
    genRawCount (handlePipelineTrigger_index baseHost settingsOn idleState "generate").2.2 = 1 ∧
    noTimeouts (handlePipelineTrigger_index baseHost settingsOn idleState "generate").2.2 =
      true :=
  ⟨by decide, by decide⟩

/-- C7 amended: in the pipeline.js and part_000 implementation exactly the
analysis /genraw call carries the fixed 45000 ms wall-clock timeout and no
other host call carries any, with the analysis call issued at most once per
run (no retries); in the index.js variant no host call at all carries a
wall-clock timeout, and the analysis call is still issued at most once. -/
theorem claim7_amended :
    (∀ (host : Host) (settings : Settings) (st : ExtState) (ev : String),
      noTimeouts (handlePipelineTrigger_index host settings st ev).2.2 = true ∧
      genRawCount (handlePipelineTrigger_index host settings st ev).2.2 ≤ 1) ∧
    (∀ (host : Host) (settings : Settings) (st : ExtState) (ev : String),
      (handlePipelineTrigger_part0 host settings st ev).2.2.all timeoutDiscipline = true ∧
      genRawCount (handlePipelineTrigger_part0 host settings st ev).2.2 ≤ 1) ∧
    (∀ (host : Host) (settings : Settings) (p : String),
      (runAnalysisStage_pipeline host settings p).1.all timeoutDiscipline = true ∧
      genRawCount (runAnalysisStage_pipeline host settings p).1 ≤ 1) ∧
    (∀ (host : Host) (settings : Settings) (uids : List Int),
      (activateLorebooks_pipeline host settings uids).1.all timeoutDiscipline = true ∧
      genRawCount (activateLorebooks_pipeline host settings uids).1 = 0) :=
  ⟨c7_index_inv, c7_part0_inv,
   fun host settings p =>
     ⟨analysis_pipeline_discipline host settings p, analysis_pipeline_genCount host settings p⟩,
   activate_pipeline_inv⟩

